import Mathlib

/-!
Verification of the Polymarket 5-minute BTC arbitrage monitor
(`polymarket-5m-arb-monitor/scripts/monitor_btc_5m_arb.py`), shallowly
embedded over `ℚ` (Python floats are modelled as exact rationals, Python
ints as `ℤ`/`ℕ`).  A computation that the Python raises on is modelled by
`Option`/`Except` returning `none`/`.error`.
-/

namespace ArbMonitor

/-- The fields of the record built by `build_opportunity` that the gate
logic computes (the remaining fields of the Python dict are metadata
pass-throughs). -/
structure Opportunity where
  signal : String
  best_side : String
  best_edge : ℚ
  fee_rate : ℚ
  model_up_prob : ℚ
  model_down_prob : ℚ
  pm_up_prob : ℚ
  pm_down_prob : ℚ
deriving Repr, DecidableEq

/-- Embedding of `build_opportunity` (monitor_btc_5m_arb.py, lines 487-521):
`edge_up = up_prob_model - up_prob_pm`,
`edge_down = (1 - up_prob_model) - down_prob_pm`,
`best_side = "UP" if edge_up >= edge_down else "DOWN"`,
`best_edge` is the edge of the chosen side, and
`signal = "ARBITRAGE" if best_edge > fee_rate else "NO_EDGE"`. -/
def build_opportunity (up_prob_pm down_prob_pm up_prob_model fee_rate : ℚ) :
    Opportunity :=
  let down_prob_model : ℚ := 1 - up_prob_model
  let edge_up := up_prob_model - up_prob_pm
  let edge_down := down_prob_model - down_prob_pm
  let best_side := if edge_up ≥ edge_down then "UP" else "DOWN"
  let best_edge := if best_side = "UP" then edge_up else edge_down
  let signal := if best_edge > fee_rate then "ARBITRAGE" else "NO_EDGE"
  ⟨signal, best_side, best_edge, fee_rate, up_prob_model, down_prob_model,
    up_prob_pm, down_prob_pm⟩

/-- The metadata dictionary returned by `estimate_up_probability_knn`
(`sample_count`, `current_5m_ret`, `uncond_up_prob`, all Python floats). -/
structure KnnMeta where
  sample_count : ℚ
  current_5m_ret : ℚ
  uncond_up_prob : ℚ
deriving Repr, DecidableEq

/-- The training set built by the loop at lines 264-273: for
`t in range(5, len(closes) - 5)`, feature `closes[t]/closes[t-5] - 1` and
label `1 if closes[t+5]/closes[t] - 1 > 0 else 0`, skipping every `t` with
`closes[t-5] <= 0 or closes[t] <= 0`. -/
def trainingPairs (closes : List ℚ) : List (ℚ × ℚ) :=
  (List.range' 5 (closes.length - 10)).filterMap (fun t =>
    let prev := closes.getD (t - 5) 0
    let cur := closes.getD t 0
    let nxt := closes.getD (t + 5) 0
    if prev ≤ 0 ∨ cur ≤ 0 then none
    else some (cur / prev - 1, if nxt / cur - 1 > 0 then 1 else 0))

/-- The comparator of `pairs.sort(key=lambda p: abs(p[0] - cur_ret))`:
compare absolute distances of the features to the current return. -/
def distLe (cur_ret : ℚ) (p q : ℚ × ℚ) : Bool :=
  decide (|p.1 - cur_ret| ≤ |q.1 - cur_ret|)

/-- The order produced by `pairs.sort(key=lambda p: abs(p[0] - cur_ret))`
at line 284: a stable merge sort on absolute distance to the current
return (the Python `list.sort` method is a stable sort). -/
def sortByDistance (cur_ret : ℚ) (pairs : List (ℚ × ℚ)) : List (ℚ × ℚ) :=
  pairs.mergeSort (distLe cur_ret)

/-- The neighbour count `k = max(10, min(neighbors, len(pairs)))` at
line 286. -/
def kOf (neighbors : ℤ) (total : ℕ) : ℤ := max 10 (min neighbors (total : ℤ))

/-- The current trailing five-minute return `closes[-1] / closes[-6] - 1`
computed at line 282.  Unlike the training loop, this division is not
guarded. -/
def knnCurRet (closes : List ℚ) : ℚ :=
  closes.getD (closes.length - 1) 0 / closes.getD (closes.length - 6) 0 - 1

/-- Mean of the labels of a list of (feature, label) pairs.  Used by the
spec-side description of the estimator (§4.1 steps 5-6). -/
def labelMean (l : List (ℚ × ℚ)) : ℚ := (l.map Prod.snd).sum / (l.length : ℚ)

/-- Embedding of `estimate_up_probability_knn` (lines 256-299).  The result
is `none` exactly where the Python raises `ZeroDivisionError`: the unguarded
division `closes[-1] / closes[-6]` at line 282 when `closes[-6]` is zero.
Every division inside the training loop is guarded by the
`prev <= 0 or cur <= 0` skip, and the divisions by `k` and `len(targets)`
are by positive counts on the main path, so no other operation can raise. -/
def estimate_up_probability_knn (closes : List ℚ) (neighbors : ℤ) :
    Option (ℚ × KnnMeta) :=
  let pairs := trainingPairs closes
  if pairs.length < 50 then
    some (1/2, ⟨(pairs.length : ℚ), 0, 1/2⟩)
  else
    let denom := closes.getD (closes.length - 6) 0
    if denom = 0 then none
    else
      let cur_ret := knnCurRet closes
      let ranked := sortByDistance cur_ret pairs
      let k := kOf neighbors pairs.length
      let nearest := ranked.take k.toNat
      let cond_prob := (nearest.map Prod.snd).sum / (k : ℚ)
      let uncond_prob := (pairs.map Prod.snd).sum / (pairs.length : ℚ)
      let blended := 7/10 * cond_prob + 3/10 * uncond_prob
      some (max (1/100) (min (99/100) blended),
        ⟨(pairs.length : ℚ), cur_ret, uncond_prob⟩)

/-- The probability that steps 3-7 of section 4.1 of the spec describe,
written from the words of the spec: rank the training pairs by ascending absolute distance to the
current return with a stable sort, take the `k` nearest, blend the mean of
their labels with the mean of all labels at 70/30, and clip to
`[0.01, 0.99]`. -/
def knnSpecProb (closes : List ℚ) (neighbors : ℤ) : ℚ :=
  let pairs := trainingPairs closes
  let ranked := sortByDistance (knnCurRet closes) pairs
  let nearest := ranked.take (kOf neighbors pairs.length).toNat
  max (1/100) (min (99/100)
    (7/10 * labelMean nearest + 3/10 * labelMean pairs))

/-- A 62-bar price series whose sixth-from-last close (index 56) is zero
while 51 valid training pairs survive the guards. -/
def badCloses : List ℚ := List.replicate 56 1 ++ 0 :: List.replicate 5 1

/-- Outcome record of `maybe_auto_trade` (lines 402-484): whether an order
was submitted, the reason code, the order side set on success, and the
quantity passed to the sell order (the claims need no further fields of the
Python dict). -/
structure AutoTradeOut where
  executed : Bool
  reason : String
  side : Option String
  sell_qty : Option ℚ
deriving Repr, DecidableEq

/-- The external trading collaborators `maybe_auto_trade` consults: whether
`submit_order` succeeds (otherwise it raises, caught at line 481) and the
long position reported by `get_crypto_position_qty`. -/
structure TradeEnv where
  submit_ok : Bool
  position_qty : ℚ
deriving Repr, DecidableEq

/-- The cooldown test at line 424:
`last_trade_ts is not None and (now_ts - last_trade_ts) < cooldown_seconds`. -/
def cooldownActive (last_trade_ts : Option ℚ) (now_ts cooldown_seconds : ℚ) :
    Prop :=
  ∃ t, last_trade_ts = some t ∧ now_ts - t < cooldown_seconds

instance instDecCooldownActive (last : Option ℚ) (now cd : ℚ) :
    Decidable (cooldownActive last now cd) :=
  match last with
  | none => .isFalse (by simp [cooldownActive])
  | some t => decidable_of_iff (now - t < cd) (by simp [cooldownActive])

/-- Python `round` to the nearest integer with halves rounded to even, as applied by `round(qty, 6)`. -/
def pyRound (q : ℚ) : ℤ :=
  if q - ⌊q⌋ < 1/2 then ⌊q⌋
  else if 1/2 < q - ⌊q⌋ then ⌊q⌋ + 1
  else if ⌊q⌋ % 2 = 0 then ⌊q⌋ else ⌊q⌋ + 1

/-- Python `round(q, 6)` at lines 469 and 478. -/
def round6 (q : ℚ) : ℚ := (pyRound (q * 1000000) : ℚ) / 1000000

/-- Embedding of `maybe_auto_trade` (lines 402-484): refuse when the signal
is not ARBITRAGE; refuse while the cooldown is active; refuse an unknown
side; on UP submit a notional buy; on DOWN require a positive spot price and
an existing long position and sell `round(min(current_qty, notional/spot), 6)`;
a raising `submit_order` yields `executed = false` with reason
`submit_failed`. -/
def maybe_auto_trade (signal best_side : String) (spot : ℚ)
    (trade_notional_usd : ℚ) (last_trade_ts : Option ℚ) (now_ts : ℚ)
    (cooldown_seconds : ℚ) (env : TradeEnv) : AutoTradeOut :=
  if signal ≠ "ARBITRAGE" then ⟨false, "signal_not_arbitrage", none, none⟩
  else if cooldownActive last_trade_ts now_ts cooldown_seconds then
    ⟨false, "cooldown", none, none⟩
  else if best_side ≠ "UP" ∧ best_side ≠ "DOWN" then
    ⟨false, "invalid_best_side", none, none⟩
  else if best_side = "UP" then
    if env.submit_ok then ⟨true, "submitted", some "buy", none⟩
    else ⟨false, "submit_failed", none, none⟩
  else
    if spot ≤ 0 then ⟨false, "invalid_spot_price", none, none⟩
    else
      let qty_to_sell := trade_notional_usd / spot
      let current_qty := env.position_qty
      if current_qty ≤ 0 then ⟨false, "no_position_for_down_signal", none, none⟩
      else
        let qty := min current_qty qty_to_sell
        if qty ≤ 0 then ⟨false, "qty_too_small", none, none⟩
        else if env.submit_ok then
          ⟨true, "submitted", some "sell", some (round6 qty)⟩
        else ⟨false, "submit_failed", none, none⟩

/-- The update of `last_trade_ts` in `main` (lines 619-620): it is refreshed
only when the auto-trade outcome reports `executed`; skips and failures
leave it unchanged. -/
def updateLastTradeTs (out : AutoTradeOut) (last : Option ℚ) (now : ℚ) :
    Option ℚ :=
  if out.executed then some now else last

/-- A JSONL log row, reduced to the fields the claims inspect: the `signal`
tag and the error message of ERROR rows. -/
structure LogRow where
  signal : String
  error : Option String
deriving Repr, DecidableEq

/-- The external data one polling round consumes: either the fetched
`(pm_up_prob, pm_down_prob, closes)` triple or the message of the exception
raised while fetching (network error, malformed quote, short history). -/
abbrev RoundInput := Except String (ℚ × ℚ × List ℚ)

/-- One iteration of the `while True` body (lines 590-641): the `try` block
builds an opportunity row from the fetched data; any exception — a failed
fetch or the unguarded division in the estimator — is caught at line 631 and
becomes an ERROR-tagged row.  Either way exactly one row is appended. -/
def runRound (input : RoundInput) (fee_rate : ℚ) (neighbors : ℤ) : LogRow :=
  match input with
  | .error e => ⟨"ERROR", some e⟩
  | .ok (up_pm, down_pm, closes) =>
    match estimate_up_probability_knn closes neighbors with
    | none => ⟨"ERROR", some "division by zero"⟩
    | some (up_model, _) =>
      ⟨(build_opportunity up_pm down_pm up_model fee_rate).signal, none⟩

/-- A bounded run of the polling loop (lines 588-645) over the given
per-round inputs: each round appends exactly one row and the loop exits by
the round counter reaching `polls`, never by a raised per-round exception. -/
def mainLoop (inputs : List RoundInput) (fee_rate : ℚ) (neighbors : ℤ) :
    List LogRow :=
  inputs.map (fun i => runRound i fee_rate neighbors)

/-- A three-round input trace with a fetch failure injected on round 2. -/
def sampleInputs : List RoundInput :=
  [.ok (1/2, 1/2, List.replicate 10 1), .error "boom",
    .ok (1/2, 1/2, List.replicate 10 1)]

/-- Exit mode of the polling loop body. -/
inductive LoopExit where
  | completed
  | stopped
  | fatal (msg : String)
deriving Repr, DecidableEq

/-- Result of launching the monitor. -/
inductive StartOutcome where
  | concurrentInstance (pid : ℕ)
  | ran (exit : LoopExit)
deriving Repr, DecidableEq

/-- Trace of the pid-file lifecycle in `main`: the outcome, whether the loop
was entered, the pid-file content while the loop ran, and the pid-file
content after `main` returns. -/
structure MonitorRun where
  outcome : StartOutcome
  loopEntered : Bool
  pidDuringLoop : Option ℕ
  pidFileFinal : Option ℕ
deriving Repr, DecidableEq

/-- Embedding of the single-instance guard and cleanup in `main`
(lines 570-587 and 646-647): read the pid file (`none` models both a
missing and an unparsable file, as in `read_pid`); if the recorded process
is alive, fail fast with SystemExit(1) and leave the file untouched; if it
is stale, remove it; then write our own pid, run the loop, and remove the
pid file in the `finally` block whatever the exit mode of the loop.  `alive`
abstracts `process_exists`. -/
def monitorMain (alive : ℕ → Bool) (myPid : ℕ) (pidFile0 : Option ℕ)
    (exit : LoopExit) : MonitorRun :=
  match pidFile0 with
  | some pid =>
    if alive pid then ⟨.concurrentInstance pid, false, none, some pid⟩
    else ⟨.ran exit, true, some myPid, none⟩
  | none => ⟨.ran exit, true, some myPid, none⟩

/-- The CLI arguments `main` checks before entering the loop.  The parser
also accepts `--neighbors` (line 80-85), recorded here so the validation
model can state what is and is not checked. -/
structure Args where
  interval_seconds : ℤ
  fee_rate : ℚ
  neighbors : ℤ
  trade_notional_usd : ℚ
  trade_cooldown_seconds : ℤ
deriving Repr, DecidableEq

/-- The configuration-time checks `main` performs before the loop
(lines 551-568), in source order; each failing check prints a message and
raises SystemExit(1).  No check reads `neighbors`. -/
def validate_args (a : Args) : Except ℕ Unit :=
  if a.interval_seconds ≤ 0 then .error 1
  else if a.fee_rate ≤ 0 then .error 1
  else if a.trade_notional_usd ≤ 0 then .error 1
  else if a.trade_cooldown_seconds < 0 then .error 1
  else .ok ()

/-- `main` as seen by the claims: validation first (SystemExit(1) aborts
before any round), then the bounded polling loop over the per-round
inputs. -/
def main_model (a : Args) (inputs : List RoundInput) :
    Except ℕ (List LogRow) :=
  match validate_args a with
  | .error c => .error c
  | .ok _ => .ok (mainLoop inputs a.fee_rate a.neighbors)

/-- The signal of every opportunity is either ARBITRAGE or NO_EDGE. -/
lemma build_opportunity_signal_cases (up_pm down_pm up_model fee : ℚ) :
    (build_opportunity up_pm down_pm up_model fee).signal = "ARBITRAGE" ∨
    (build_opportunity up_pm down_pm up_model fee).signal = "NO_EDGE" := by
  unfold build_opportunity
  dsimp only
  split_ifs <;> simp

/-- C1: for all model/market probabilities and every fee rate,
`build_opportunity` computes `edge_up = model_up - market_up` and
`edge_down = (1 - model_up) - market_down`, picks UP exactly when
`edge_up ≥ edge_down`, sets `best_edge = max edge_up edge_down`, signals
ARBITRAGE iff `best_edge` strictly exceeds the fee rate, and in particular
signals NO_EDGE when `best_edge` equals the fee rate exactly. -/
theorem build_opportunity_gate (up_pm down_pm up_model fee : ℚ) :
    ((build_opportunity up_pm down_pm up_model fee).best_side = "UP" ↔
      (1 - up_model) - down_pm ≤ up_model - up_pm) ∧
    (build_opportunity up_pm down_pm up_model fee).best_edge
      = max (up_model - up_pm) ((1 - up_model) - down_pm) ∧
    ((build_opportunity up_pm down_pm up_model fee).signal = "ARBITRAGE" ↔
      fee < (build_opportunity up_pm down_pm up_model fee).best_edge) ∧
    ((build_opportunity up_pm down_pm up_model fee).best_edge = fee →
      (build_opportunity up_pm down_pm up_model fee).signal = "NO_EDGE") := by
  unfold build_opportunity
  dsimp only
  by_cases hside : (1 - up_model) - down_pm ≤ up_model - up_pm
  · rw [if_pos hside]
    simp only [if_pos rfl, ge_iff_le]
    refine ⟨by simp [hside], (max_eq_left hside).symm, ?_, ?_⟩
    · by_cases hfee : fee < up_model - up_pm
      · simp [if_pos hfee, hfee]
      · simp [if_neg hfee, hfee]
    · intro he
      rw [he]
      simp [lt_irrefl]
  · rw [if_neg hside]
    have hUP : ("DOWN" : String) ≠ "UP" := by decide
    rw [if_neg hUP]
    refine ⟨by simp [hside, hUP], ?_, ?_, ?_⟩
    · rw [max_eq_right (le_of_not_le hside)]
    · by_cases hfee : fee < (1 - up_model) - down_pm
      · simp [if_pos hfee, hfee]
      · simp [if_neg hfee, hfee]
    · intro he
      rw [he]
      simp [lt_irrefl]

/-- Witness for C1 at the worked example of the spec: model up-probability 0.6
against a 0.5/0.5 market with fee 0.05 yields side UP, edge 0.1, and an
ARBITRAGE signal. -/
theorem build_opportunity_gate_witness :
    ((1 - (3/5 : ℚ)) - 1/2 ≤ (3/5 : ℚ) - 1/2) ∧
    (build_opportunity (1/2) (1/2) (3/5) (1/20)).best_side = "UP" ∧
    (build_opportunity (1/2) (1/2) (3/5) (1/20)).best_edge
      = max ((3/5 : ℚ) - 1/2) ((1 - (3/5 : ℚ)) - 1/2) ∧
    (build_opportunity (1/2) (1/2) (3/5) (1/20)).signal = "ARBITRAGE" := by
  have h := build_opportunity_gate (1/2) (1/2) (3/5) (1/20)
  refine ⟨by norm_num, h.1.mpr (by norm_num), h.2.1, h.2.2.1.mpr ?_⟩
  rw [h.2.1]
  rw [max_eq_left (by norm_num)]
  norm_num

/-- C6: a live lock-file pid makes the monitor fail fast before entering the
loop, leaving the file untouched; a stale lock file is removed and the new
pid is written before the loop runs; and every exit mode of the loop leaves
the pid file removed. -/
theorem monitor_lock_lifecycle (alive : ℕ → Bool) (myPid : ℕ)
    (pidFile0 : Option ℕ) (exit : LoopExit) :
    (∀ pid, pidFile0 = some pid → alive pid = true →
      monitorMain alive myPid pidFile0 exit
        = ⟨.concurrentInstance pid, false, none, some pid⟩) ∧
    (∀ pid, pidFile0 = some pid → alive pid = false →
      (monitorMain alive myPid pidFile0 exit).loopEntered = true ∧
      (monitorMain alive myPid pidFile0 exit).pidDuringLoop = some myPid) ∧
    ((monitorMain alive myPid pidFile0 exit).loopEntered = true →
      (monitorMain alive myPid pidFile0 exit).pidFileFinal = none) := by
  refine ⟨?_, ?_, ?_⟩
  · rintro pid rfl hlive
    simp [monitorMain, hlive]
  · rintro pid rfl hdead
    simp [monitorMain, hdead]
  · intro hloop
    cases hp : pidFile0 with
    | none => simp [monitorMain, hp]
    | some pid =>
      by_cases hlive : alive pid = true
      · rw [hp] at hloop
        simp [monitorMain, hlive] at hloop
      · simp [monitorMain, hp, hlive]

/-- Witness for C6: with a stale lock file recording pid 7 and our pid 42,
the loop is entered with 42 in the lock file, and after a bounded completion
the lock file is gone. -/
theorem monitor_lock_lifecycle_witness :
    ((some 7 : Option ℕ) = some 7) ∧ ((fun _ : ℕ => false) 7 = false) ∧
    ((monitorMain (fun _ => false) 42 (some 7) .completed).loopEntered = true ∧
      (monitorMain (fun _ => false) 42 (some 7) .completed).pidDuringLoop
        = some 42) ∧
    (monitorMain (fun _ => false) 42 (some 7) .completed).pidFileFinal
      = none :=
  ⟨rfl, rfl,
    (monitor_lock_lifecycle (fun _ => false) 42 (some 7) .completed).2.1 7
      rfl rfl,
    (monitor_lock_lifecycle (fun _ => false) 42 (some 7) .completed).2.2
      (by decide)⟩

/-- C7 counterexample: a configuration whose neighbor count is zero (or
negative) but is otherwise valid passes every configuration-time check and
reaches the polling loop — the neighbor count is never validated. -/
theorem neighbors_not_validated_cex :
    validate_args ⟨30, 1, 0, 100, 300⟩ = .ok () ∧
    validate_args ⟨30, 1, -5, 100, 300⟩ = .ok () ∧
    main_model ⟨30, 1, 0, 100, 300⟩ [] = .ok [] := by
  have hok : validate_args ⟨30, 1, 0, 100, 300⟩ = .ok () := rfl
  refine ⟨hok, rfl, ?_⟩
  simp [main_model, hok, mainLoop]

/-- C7 amended: the fee rate is validated at configuration time (zero or
negative values abort with SystemExit(1) before the loop), but the neighbor
count is not: validation is insensitive to it, and a non-positive neighbor
count is instead silently floored to `k = 10` inside the estimator. -/
theorem config_validation_fee_only (a : Args) :
    (a.fee_rate ≤ 0 → validate_args a = .error 1) ∧
    (∀ n n' : ℤ,
      validate_args ⟨a.interval_seconds, a.fee_rate, n, a.trade_notional_usd,
        a.trade_cooldown_seconds⟩
        = validate_args ⟨a.interval_seconds, a.fee_rate, n',
            a.trade_notional_usd, a.trade_cooldown_seconds⟩) ∧
    (∀ (n : ℤ) (total : ℕ), n ≤ 0 → kOf n total = 10) := by
  refine ⟨?_, fun n n' => rfl, ?_⟩
  · intro hfee
    unfold validate_args
    split_ifs <;> rfl
  · intro n total hn
    unfold kOf
    have h1 : min n (total : ℤ) ≤ 10 :=
      le_trans (min_le_left _ _) (le_trans hn (by norm_num))
    exact max_eq_left h1

/-- Witness for C7: a negative fee rate is rejected with exit code 1, and a
negative neighbor count is floored to 10 by the estimator. -/
theorem config_validation_fee_only_witness :
    ((-1 : ℚ) ≤ 0) ∧ validate_args ⟨30, -1, 80, 100, 300⟩ = .error 1 ∧
    ((-80 : ℤ) ≤ 0) ∧ kOf (-80) 500 = 10 :=
  ⟨by norm_num,
    (config_validation_fee_only ⟨30, -1, 80, 100, 300⟩).1 (by norm_num),
    by norm_num,
    (config_validation_fee_only ⟨30, -1, 80, 100, 300⟩).2.2 (-80) 500
      (by norm_num)⟩

/-- C8: any invalid CLI parameter — non-positive interval, fee rate, or
notional, or a negative cooldown — aborts `main` before any round executes,
with the non-zero exit status 1. -/
theorem invalid_args_fatal (a : Args) (inputs : List RoundInput)
    (h : a.interval_seconds ≤ 0 ∨ a.fee_rate ≤ 0 ∨
      a.trade_notional_usd ≤ 0 ∨ a.trade_cooldown_seconds < 0) :
    main_model a inputs = .error 1 ∧ (1 : ℕ) ≠ 0 := by
  have hv : validate_args a = .error 1 := by
    unfold validate_args
    split_ifs with h1 h2 h3 h4
    any_goals rfl
    rcases h with h | h | h | h
    · exact absurd h h1
    · exact absurd h h2
    · exact absurd h h3
    · exact absurd h h4
  exact ⟨by simp [main_model, hv], by norm_num⟩

/-- Witness for C8: a zero polling interval aborts with exit code 1 and an
empty round log. -/
theorem invalid_args_fatal_witness :
    ((0 : ℤ) ≤ 0 ∨ (1 : ℚ) ≤ 0 ∨ (100 : ℚ) ≤ 0 ∨ (300 : ℤ) < 0) ∧
    main_model ⟨0, 1, 80, 100, 300⟩ [] = .error 1 :=
  ⟨Or.inl le_rfl, (invalid_args_fatal ⟨0, 1, 80, 100, 300⟩ []
    (Or.inl le_rfl)).1⟩

/-- An inactive cooldown means either no trade ever executed or at least the
cooldown has elapsed. -/
lemma not_cooldownActive_iff (last : Option ℚ) (now cd : ℚ) :
    ¬ cooldownActive last now cd ↔
      last = none ∨ ∃ t, last = some t ∧ cd ≤ now - t := by
  cases last <;> simp [cooldownActive, not_lt]

/-- C4 counterexample: at an elapsed time exactly equal to the cooldown
(last trade at 0, now 300, cooldown 300) the code executes the trade even
though the elapsed time does not strictly exceed the cooldown — the gate is
`>=`, not `>`. -/
theorem auto_trade_boundary_cex :
    (maybe_auto_trade "ARBITRAGE" "UP" 100 100 (some 0) 300 300
      ⟨true, 0⟩).executed = true ∧ ¬ ((300 : ℚ) - 0 > 300) := by
  constructor
  · have hcd : ¬ cooldownActive (some 0) 300 300 := by
      simp [cooldownActive]
    simp [maybe_auto_trade, hcd]
  · norm_num

/-- C4 amended: with auto-trade enabled a trade is submitted only when the
signal is ARBITRAGE and the elapsed time since `last_trade_ts` is at least
the cooldown (or no trade ever executed); an executed round stamps
`last_trade_ts := now`, a second ARBITRAGE signal strictly within one
cooldown window of it is not executed, and skips and failures leave
`last_trade_ts` unchanged. -/
theorem auto_trade_cooldown (s side : String) (spot notional : ℚ)
    (last : Option ℚ) (now cd : ℚ) (env : TradeEnv) :
    ((maybe_auto_trade s side spot notional last now cd env).executed = true →
      s = "ARBITRAGE" ∧
        (last = none ∨ ∃ t, last = some t ∧ cd ≤ now - t)) ∧
    ((maybe_auto_trade s side spot notional last now cd env).executed = true →
      updateLastTradeTs (maybe_auto_trade s side spot notional last now cd env)
        last now = some now) ∧
    ((maybe_auto_trade s side spot notional last now cd env).executed = false →
      updateLastTradeTs (maybe_auto_trade s side spot notional last now cd env)
        last now = last) ∧
    (∀ (side2 : String) (spot2 notional2 : ℚ) (env2 : TradeEnv) (now2 : ℚ),
      now2 - now < cd →
      (maybe_auto_trade "ARBITRAGE" side2 spot2 notional2 (some now) now2 cd
        env2).executed = false) := by
  refine ⟨?_, ?_, ?_, ?_⟩
  · intro hx
    unfold maybe_auto_trade at hx
    split_ifs at hx with h1 h2 h3 h4 h5 h6 h7
    all_goals simp_all
    all_goals exact (not_cooldownActive_iff last now cd).mp h2
  · intro hx
    simp [updateLastTradeTs, hx]
  · intro hx
    simp [updateLastTradeTs, hx]
  · intro side2 spot2 notional2 env2 now2 hwin
    have hcd : cooldownActive (some now) now2 cd := ⟨now, rfl, hwin⟩
    simp [maybe_auto_trade, hcd]

/-- Witness for C4: with no prior trade an ARBITRAGE/UP round executes and
the theorem recovers the gate facts; a second signal 100 seconds after a
trade at time 0 under a 300-second cooldown is not executed. -/
theorem auto_trade_cooldown_witness :
    (maybe_auto_trade "ARBITRAGE" "UP" 100 100 none 0 300
      ⟨true, 0⟩).executed = true ∧
    ("ARBITRAGE" = "ARBITRAGE" ∧
      ((none : Option ℚ) = none ∨
        ∃ t, (none : Option ℚ) = some t ∧ (300 : ℚ) ≤ 0 - t)) ∧
    ((100 : ℚ) - 0 < 300) ∧
    (maybe_auto_trade "ARBITRAGE" "UP" 100 100 (some 0) 100 300
      ⟨true, 0⟩).executed = false := by
  have hx : (maybe_auto_trade "ARBITRAGE" "UP" 100 100 none 0 300
      ⟨true, 0⟩).executed = true := by
    have hcd : ¬ cooldownActive none 0 300 := by simp [cooldownActive]
    simp [maybe_auto_trade, hcd]
  refine ⟨hx,
    (auto_trade_cooldown "ARBITRAGE" "UP" 100 100 none 0 300 ⟨true, 0⟩).1 hx,
    by norm_num, ?_⟩
  exact (auto_trade_cooldown "ARBITRAGE" "UP" 100 100 (some 0) 0 300
    ⟨true, 0⟩).2.2.2 "UP" 100 100 ⟨true, 0⟩ 100 (by norm_num)

/-- C9 counterexample: with a long position of 1e-7 BTC, spot 100 and
notional 100, the quantity passed to the sell order is
`round(min(1e-7, 1), 6) = 0`, not the lesser quantity 1e-7 itself — the
code rounds the sell quantity to six decimal places before submitting. -/
theorem auto_trade_down_round_cex :
    (maybe_auto_trade "ARBITRAGE" "DOWN" 100 100 none 0 300
      ⟨true, 1/10000000⟩).sell_qty = some 0 ∧
    min ((1 : ℚ)/10000000) (100/100) = 1/10000000 ∧
    ((0 : ℚ) ≠ 1/10000000) := by
  have hcd : ¬ cooldownActive none 0 300 := by simp [cooldownActive]
  have hmin : min ((1 : ℚ)/10000000) (100/100) = 1/10000000 :=
    min_eq_left (by norm_num)
  refine ⟨?_, hmin, by norm_num⟩
  have hfloor : ⌊(1 : ℚ)/10⌋ = 0 := by
    rw [Int.floor_eq_zero_iff]
    constructor <;> norm_num
  simp only [maybe_auto_trade, hcd]
  norm_num [hmin, round6, pyRound, hfloor]
  rw [if_neg (by decide : ¬ ("DOWN" : String) = "UP")]

/-- C9 amended: a DOWN-side attempt requires an existing long position: with
none it is skipped with reason `no_position_for_down_signal` and no order is
submitted; with a position the quantity passed to the sell order is the
lesser of the position quantity and notional/spot, rounded to six decimal
places (Python `round(qty, 6)`). -/
theorem auto_trade_down (spot notional : ℚ) (last : Option ℚ) (now cd : ℚ)
    (env : TradeEnv) (hcd : ¬ cooldownActive last now cd) :
    (env.position_qty ≤ 0 → 0 < spot →
      maybe_auto_trade "ARBITRAGE" "DOWN" spot notional last now cd env
        = ⟨false, "no_position_for_down_signal", none, none⟩) ∧
    (0 < env.position_qty → 0 < spot → 0 < notional → env.submit_ok = true →
      (maybe_auto_trade "ARBITRAGE" "DOWN" spot notional last now cd
        env).executed = true ∧
      (maybe_auto_trade "ARBITRAGE" "DOWN" spot notional last now cd
        env).sell_qty
        = some (round6 (min env.position_qty (notional / spot)))) := by
  constructor
  · intro hqty hspot
    simp [maybe_auto_trade, hcd, not_le.mpr hspot, hqty]
  · intro hqty hspot hnot hok
    have hq : ¬ env.position_qty ≤ 0 := not_le.mpr hqty
    have hmin : ¬ min env.position_qty (notional / spot) ≤ 0 :=
      not_le.mpr (lt_min hqty (div_pos hnot hspot))
    constructor <;>
      simp [maybe_auto_trade, hcd, not_le.mpr hspot, hq, hmin, hok]

/-- Witness for C9: with no position the attempt is skipped without an
order; with a 2-BTC position, spot 100 and notional 100 the sell quantity
is `round(min(2, 1), 6)`. -/
theorem auto_trade_down_witness :
    ((0 : ℚ) ≤ 0) ∧ ((0 : ℚ) < 100) ∧
    maybe_auto_trade "ARBITRAGE" "DOWN" 100 100 none 0 300 ⟨true, 0⟩
      = ⟨false, "no_position_for_down_signal", none, none⟩ ∧
    ((0 : ℚ) < 2) ∧
    (maybe_auto_trade "ARBITRAGE" "DOWN" 100 100 none 0 300
      ⟨true, 2⟩).sell_qty = some (round6 (min 2 (100/100))) := by
  have hcd : ¬ cooldownActive none 0 300 := by simp [cooldownActive]
  refine ⟨le_rfl, by norm_num, ?_, by norm_num, ?_⟩
  · exact (auto_trade_down 100 100 none 0 300 ⟨true, 0⟩ hcd).1 le_rfl
      (by norm_num)
  · exact ((auto_trade_down 100 100 none 0 300 ⟨true, 2⟩ hcd).2 (by norm_num)
      (by norm_num) (by norm_num) rfl).2

/-- With fewer than 50 valid training pairs the estimator takes the
fallback branch: probability 1/2 and metadata (pair count, 0, 1/2). -/
lemma knn_fallback (closes : List ℚ) (neighbors : ℤ)
    (h : (trainingPairs closes).length < 50) :
    estimate_up_probability_knn closes neighbors
      = some (1/2, ⟨((trainingPairs closes).length : ℚ), 0, 1/2⟩) := by
  simp only [estimate_up_probability_knn]
  rw [if_pos h]

/-- With at least 50 pairs and a zero sixth-from-last close the embedded
estimator is undefined (the Python raises ZeroDivisionError). -/
lemma knn_none (closes : List ℚ) (neighbors : ℤ)
    (h : ¬ (trainingPairs closes).length < 50)
    (hd : closes.getD (closes.length - 6) 0 = 0) :
    estimate_up_probability_knn closes neighbors = none := by
  simp only [estimate_up_probability_knn]
  rw [if_neg h, if_pos hd]

/-- On the main path (at least 50 pairs, nonzero sixth-from-last close) the
estimator returns the clipped 70/30 blend of the nearest-neighbour label
sum over `k` and the overall label mean, with the sample count, current
return and unconditional rate as metadata. -/
lemma knn_main_value (closes : List ℚ) (neighbors : ℤ)
    (h : ¬ (trainingPairs closes).length < 50)
    (hd : closes.getD (closes.length - 6) 0 ≠ 0) :
    estimate_up_probability_knn closes neighbors
      = some (max (1/100) (min (99/100)
          (7/10 * ((((sortByDistance (knnCurRet closes)
                  (trainingPairs closes)).take
                (kOf neighbors (trainingPairs closes).length).toNat).map
                  Prod.snd).sum
              / ((kOf neighbors (trainingPairs closes).length : ℤ) : ℚ))
            + 3/10 * (((trainingPairs closes).map Prod.snd).sum
              / ((trainingPairs closes).length : ℚ)))),
        ⟨((trainingPairs closes).length : ℚ), knnCurRet closes,
          ((trainingPairs closes).map Prod.snd).sum
            / ((trainingPairs closes).length : ℚ)⟩) := by
  simp only [estimate_up_probability_knn]
  rw [if_neg h, if_neg hd]

/-- C2 counterexample: 21 all-positive closes yield 11 valid training pairs,
and the fallback returns probability 1/2 with sample count 11 — not the
zero sample count the claim states. -/
theorem knn_fallback_sample_count_cex :
    (trainingPairs (List.replicate 21 1)).length = 11 ∧
    estimate_up_probability_knn (List.replicate 21 1) 80
      = some (1/2, ⟨11, 0, 1/2⟩) ∧ ((11 : ℚ) ≠ 0) := by
  have hlen : (trainingPairs (List.replicate 21 1)).length = 11 := by decide
  refine ⟨hlen, ?_, by norm_num⟩
  have h := knn_fallback (List.replicate 21 1) 80 (by decide)
  rw [hlen] at h
  rw [h]
  norm_num

/-- C2 amended: for every price series the estimator returns a probability
in [0.01, 0.99]; when fewer than 50 valid training pairs exist it returns
exactly 0.5, with the actual (sub-50, not necessarily zero) pair count as
sample count, zero current return and 0.5 unconditional rate — and never
fails on a well-formed but short series. -/
theorem knn_bounds_and_fallback (closes : List ℚ) (neighbors : ℤ) :
    ((trainingPairs closes).length < 50 →
      estimate_up_probability_knn closes neighbors
        = some (1/2, ⟨((trainingPairs closes).length : ℚ), 0, 1/2⟩)) ∧
    (∀ p meta, estimate_up_probability_knn closes neighbors = some (p, meta) →
      1/100 ≤ p ∧ p ≤ 99/100) := by
  refine ⟨fun h => knn_fallback closes neighbors h, ?_⟩
  intro p meta hp
  by_cases h : (trainingPairs closes).length < 50
  · rw [knn_fallback closes neighbors h] at hp
    simp only [Option.some.injEq, Prod.mk.injEq] at hp
    rw [← hp.1]
    norm_num
  · by_cases hd : closes.getD (closes.length - 6) 0 = 0
    · rw [knn_none closes neighbors h hd] at hp
      cases hp
    · rw [knn_main_value closes neighbors h hd] at hp
      simp only [Option.some.injEq, Prod.mk.injEq] at hp
      rw [← hp.1]
      exact ⟨le_max_left _ _, max_le (by norm_num) (min_le_left _ _)⟩

/-- Witness for C2: a 21-bar series has 11 < 50 pairs and falls back to
1/2; the returned probability satisfies the bounds. -/
theorem knn_bounds_and_fallback_witness :
    ((trainingPairs (List.replicate 21 1)).length < 50) ∧
    estimate_up_probability_knn (List.replicate 21 1) 80
      = some (1/2, ⟨((trainingPairs (List.replicate 21 1)).length : ℚ),
          0, 1/2⟩) ∧
    ((1 : ℚ)/100 ≤ 1/2 ∧ (1 : ℚ)/2 ≤ 99/100) := by
  have h50 : (trainingPairs (List.replicate 21 1)).length < 50 := by decide
  have hv := (knn_bounds_and_fallback (List.replicate 21 1) 80).1 h50
  exact ⟨h50, hv,
    (knn_bounds_and_fallback (List.replicate 21 1) 80).2 (1/2) _ hv⟩

/-- C5: in a bounded run over any mix of per-round inputs, the loop
completes with exactly one log row per round, each tagged ERROR,
ARBITRAGE or NO_EDGE — a failing round never terminates the loop. -/
theorem round_isolation (inputs : List RoundInput) (fee : ℚ)
    (neighbors : ℤ) :
    (mainLoop inputs fee neighbors).length = inputs.length ∧
    ∀ row ∈ mainLoop inputs fee neighbors,
      row.signal = "ERROR" ∨ row.signal = "ARBITRAGE" ∨
        row.signal = "NO_EDGE" := by
  refine ⟨by simp [mainLoop], ?_⟩
  intro row hrow
  rw [mainLoop, List.mem_map] at hrow
  obtain ⟨i, _, rfl⟩ := hrow
  cases i with
  | error e => exact Or.inl rfl
  | ok d =>
    obtain ⟨up_pm, down_pm, closes⟩ := d
    simp only [runRound]
    cases hst : estimate_up_probability_knn closes neighbors with
    | none => exact Or.inl rfl
    | some r =>
      obtain ⟨up_model, meta⟩ := r
      rcases build_opportunity_signal_cases up_pm down_pm up_model fee
        with hs | hs
      · exact Or.inr (Or.inl hs)
      · exact Or.inr (Or.inr hs)

/-- Witness for C5: on the three-round trace with a failure injected on
round 2, the run yields 3 rows and the row of the injected round is
ERROR-tagged. -/
theorem round_isolation_witness :
    (mainLoop sampleInputs (3/2000) 80).length = 3 ∧
    (⟨"ERROR", some "boom"⟩ : LogRow) ∈ mainLoop sampleInputs (3/2000) 80 ∧
    ((⟨"ERROR", some "boom"⟩ : LogRow).signal = "ERROR" ∨
      (⟨"ERROR", some "boom"⟩ : LogRow).signal = "ARBITRAGE" ∨
      (⟨"ERROR", some "boom"⟩ : LogRow).signal = "NO_EDGE") := by
  have hmem : (⟨"ERROR", some "boom"⟩ : LogRow)
      ∈ mainLoop sampleInputs (3/2000) 80 := by
    rw [mainLoop, sampleInputs]
    exact List.mem_map.mpr ⟨.error "boom",
      List.mem_cons_of_mem _ (List.mem_cons_self _ _), rfl⟩
  refine ⟨?_, hmem, (round_isolation sampleInputs (3/2000) 80).2 _ hmem⟩
  rw [(round_isolation sampleInputs (3/2000) 80).1]
  rfl

/-- The distance comparator is transitive. -/
lemma distLe_trans (c : ℚ) : ∀ a b d : ℚ × ℚ,
    distLe c a b = true → distLe c b d = true → distLe c a d = true := by
  intro a b d hab hbd
  simp only [distLe, decide_eq_true_eq] at hab hbd ⊢
  exact le_trans hab hbd

/-- The distance comparator is total. -/
lemma distLe_total (c : ℚ) : ∀ a b : ℚ × ℚ,
    (distLe c a b || distLe c b a) = true := by
  intro a b
  simp only [distLe, Bool.or_eq_true, decide_eq_true_eq]
  exact le_total _ _

/-- C3 counterexample: `badCloses` has at least 50 valid training pairs,
yet the estimator returns nothing at all for it (the unguarded current-
return division raises), so it does not return the claimed blended value
for every series with at least 50 pairs. -/
theorem knn_main_path_cex :
    50 ≤ (trainingPairs badCloses).length ∧
    estimate_up_probability_knn badCloses 80 = none :=
  ⟨by decide, by decide⟩

/-- C3 amended: for every price series with at least 50 valid training
pairs and a nonzero sixth-from-last close (otherwise the estimator raises
instead of returning), and every neighbor count: the ranking is a
permutation of the training pairs, ascending in absolute distance to the
current return, stable on ties; `k = max(10, min(neighbors, total))`; and
the returned probability is the 70/30 blend of the label mean of the `k`
nearest pairs with the label mean of all pairs, clipped to [0.01, 0.99]. -/
theorem knn_main_path (closes : List ℚ) (neighbors : ℤ)
    (h50 : 50 ≤ (trainingPairs closes).length)
    (hd : closes.getD (closes.length - 6) 0 ≠ 0) :
    (sortByDistance (knnCurRet closes) (trainingPairs closes)).Perm
      (trainingPairs closes) ∧
    (sortByDistance (knnCurRet closes) (trainingPairs closes)).Pairwise
      (fun p q => |p.1 - knnCurRet closes| ≤ |q.1 - knnCurRet closes|) ∧
    (∀ p q : ℚ × ℚ, |p.1 - knnCurRet closes| = |q.1 - knnCurRet closes| →
      [p, q].Sublist (trainingPairs closes) →
      [p, q].Sublist
        (sortByDistance (knnCurRet closes) (trainingPairs closes))) ∧
    kOf neighbors (trainingPairs closes).length
      = max 10 (min neighbors ((trainingPairs closes).length : ℤ)) ∧
    estimate_up_probability_knn closes neighbors
      = some (knnSpecProb closes neighbors,
          ⟨((trainingPairs closes).length : ℚ), knnCurRet closes,
            labelMean (trainingPairs closes)⟩) := by
  have hk10 : (10 : ℤ) ≤ kOf neighbors (trainingPairs closes).length :=
    le_max_left _ _
  have hk0 : (0 : ℤ) < kOf neighbors (trainingPairs closes).length :=
    lt_of_lt_of_le (by norm_num) hk10
  have hkle : kOf neighbors (trainingPairs closes).length
      ≤ ((trainingPairs closes).length : ℤ) := by
    apply max_le
    · exact_mod_cast le_trans (by norm_num) h50
    · exact min_le_right _ _
  have hlen_near : ((sortByDistance (knnCurRet closes)
        (trainingPairs closes)).take
        (kOf neighbors (trainingPairs closes).length).toNat).length
      = (kOf neighbors (trainingPairs closes).length).toNat := by
    rw [List.length_take, sortByDistance, List.length_mergeSort]
    exact min_eq_left (Int.toNat_le.mpr hkle)
  have hcast : (((kOf neighbors (trainingPairs closes).length).toNat : ℕ) : ℚ)
      = ((kOf neighbors (trainingPairs closes).length : ℤ) : ℚ) := by
    rw [← Int.cast_natCast, Int.toNat_of_nonneg hk0.le]
  refine ⟨List.mergeSort_perm _ _, ?_, ?_, rfl, ?_⟩
  · exact (List.sorted_mergeSort (distLe_trans (knnCurRet closes))
      (distLe_total (knnCurRet closes)) (trainingPairs closes)).imp
      (fun h => by simpa [distLe, decide_eq_true_eq] using h)
  · intro p q heq hsub
    exact List.sublist_mergeSort (distLe_trans (knnCurRet closes))
      (distLe_total (knnCurRet closes))
      (List.pairwise_pair.mpr (by simp [distLe, decide_eq_true_eq,
        le_of_eq heq])) hsub
  · rw [knn_main_value closes neighbors (not_lt.mpr h50) hd]
    simp only [knnSpecProb, labelMean]
    rw [hlen_near, hcast]

/-- Witness for C3 at a 61-bar all-ones series (51 pairs, nonzero
sixth-from-last close): the estimator returns the spec-side probability
and metadata. -/
theorem knn_main_path_witness :
    (50 ≤ (trainingPairs (List.replicate 61 (1 : ℚ))).length) ∧
    ((List.replicate 61 (1 : ℚ)).getD
      ((List.replicate 61 (1 : ℚ)).length - 6) 0 ≠ 0) ∧
    estimate_up_probability_knn (List.replicate 61 1) 80
      = some (knnSpecProb (List.replicate 61 1) 80,
          ⟨((trainingPairs (List.replicate 61 (1 : ℚ))).length : ℚ),
            knnCurRet (List.replicate 61 1),
            labelMean (trainingPairs (List.replicate 61 1))⟩) :=
  ⟨by decide, by decide,
    (knn_main_path (List.replicate 61 1) 80 (by decide) (by decide)).2.2.2.2⟩

/-- C10: the training-pair divisions are guarded, so for every all-positive
price series the estimator is total; but the current-return division is
not — `badCloses` reaches the main path with at least 50 valid pairs, has a
zero sixth-from-last close, and the estimator fails on it instead of
falling back. -/
theorem knn_division_guard :
    (∀ (closes : List ℚ) (neighbors : ℤ), (∀ x ∈ closes, 0 < x) →
      (estimate_up_probability_knn closes neighbors).isSome = true) ∧
    (50 ≤ (trainingPairs badCloses).length ∧
      badCloses.getD (badCloses.length - 6) 0 = 0 ∧
      estimate_up_probability_knn badCloses 80 = none) := by
  constructor
  · intro closes neighbors hpos
    by_cases h : (trainingPairs closes).length < 50
    · rw [knn_fallback closes neighbors h]
      rfl
    · have h1 : (trainingPairs closes).length ≤ closes.length - 10 := by
        calc (trainingPairs closes).length
            ≤ (List.range' 5 (closes.length - 10)).length :=
              List.length_filterMap_le _ _
          _ = closes.length - 10 := by simp
      have hidx : closes.length - 6 < closes.length := by omega
      have hmem : closes.getD (closes.length - 6) 0 ∈ closes := by
        rw [List.getD_eq_getElem closes 0 hidx]
        exact List.getElem_mem hidx
      have hd : closes.getD (closes.length - 6) 0 ≠ 0 :=
        ne_of_gt (hpos _ hmem)
      rw [knn_main_value closes neighbors h hd]
      rfl
  · exact ⟨by decide, by decide, by decide⟩

/-- Witness for C10: an all-positive 61-bar series yields a defined
estimate. -/
theorem knn_division_guard_witness :
    (∀ x ∈ List.replicate 61 (1 : ℚ), 0 < x) ∧
    (estimate_up_probability_knn (List.replicate 61 1) 80).isSome = true := by
  have hpos : ∀ x ∈ List.replicate 61 (1 : ℚ), 0 < x := by
    intro x hx
    rw [List.eq_of_mem_replicate hx]
    norm_num
  exact ⟨hpos, knn_division_guard.1 _ 80 hpos⟩

end ArbMonitor
